import Mathlib

/-!
Verification of the session-manager core of the REST backend: refresh-token
rotation, reuse detection, logout, the authentication middleware, and the
register/login/logout/refresh-token route handlers.

The embedding mirrors the TypeScript source:
  * `UsersController.generateTokens` and `UsersController.verifyRefreshToken`
    (controllers/UsersController.ts);
  * the `authenticate` middleware (src/middleware/auth.ts);
  * the `/users` route handlers (src/routes/users.ts).

External collaborators are modelled as parameters or small structures:
  * the credential store is a list of user documents; `findById`, `byUsername`
    and `save` follow the mongoose query semantics used by the code
    (lookup by id / username, full overwrite of the matching document);
  * the token codec's `jwt.verify` is a parameter `verify : String → Option Payload`
    (`none` models the error callback for a malformed or expired token);
  * `jwt.sign` is deterministic for a fixed payload, secret, expiry window and
    issue time, so a signed token is modelled as the record of those sign
    inputs: two tokens are bit-identical exactly when the records are equal.
-/

/-- The jwt payload the controller signs: `{ _id, random }`
(`random = Math.random()`, modelled as an opaque `Nat` nonce). -/
structure Payload where
  _id : Nat
  random : Nat
  deriving Repr, DecidableEq

/-- The user document subset the core reads and writes:
`_id`, `username`, `password` (hashed), `email`, `avatar`, `tokens`
(mongoose schema in src/models/users.ts). -/
structure UserDoc where
  _id : Nat
  username : String
  password : String
  email : String
  avatar : String
  tokens : List String
  deriving Repr, DecidableEq

/-- One credential-store access performed by a handler (mongoose calls). -/
inductive StoreOp where
  | findById (id : Nat)
  | findByUsername (name : String)
  | save (u : UserDoc)
  | create (u : UserDoc)
  deriving Repr, DecidableEq

/-- The credential store: the collection of user documents. -/
abbrev Store := List UserDoc

/-- `this.findById(userID)`: mongoose `Model.findById`, the document whose
`_id` matches, if any. -/
def findById : Store → Nat → Option UserDoc
  | [], _ => none
  | v :: rest, id => if v._id = id then some v else findById rest id

/-- `this.model.find().byUsername(username)`: `findOne({ username })`. -/
def findByUsername : Store → String → Option UserDoc
  | [], _ => none
  | v :: rest, username =>
      if v.username = username then some v else findByUsername rest username

/-- `user.save()`: persist the in-memory document, overwriting the stored
document with the same `_id`. -/
def saveUser : Store → UserDoc → Store
  | [], _ => []
  | v :: rest, u => (if v._id = u._id then u else v) :: saveUser rest u

/-- How a `verifyRefreshToken` call settles its promise. `hung` is the path
where `jwt.verify` reports an error: the callback never checks `err`, so
`userInfo._id` throws on the undefined payload outside the `try` block and
neither `resolve` nor `reject` ever runs. -/
inductive RotateResult where
  | ok (user : UserDoc)
  | fail
  | hung
  deriving Repr, DecidableEq

/-- `UsersController.verifyRefreshToken` (controllers/UsersController.ts):
`jwt.verify` the token, load the user by the embedded `_id`, then

  * user missing → `reject('fail')`;
  * token not in `user.tokens` → clear `user.tokens`, save, `reject('fail')`;
  * token present → `user.tokens = tokens.filter(t => t !== refreshToken)`,
    save, `resolve(user)`.

Returns the settled result, the store after the call, and the trace of store
accesses made. -/
def verifyRefreshToken (verify : String → Option Payload) (store : Store)
    (refreshToken : String) : RotateResult × Store × List StoreOp :=
  match verify refreshToken with
  | none => (RotateResult.hung, store, [])
  | some userInfo =>
    match findById store userInfo._id with
    | none => (RotateResult.fail, store, [StoreOp.findById userInfo._id])
    | some user =>
      if refreshToken ∉ user.tokens then
        let user' := { user with tokens := [] }
        (RotateResult.fail, saveUser store user',
          [StoreOp.findById userInfo._id, StoreOp.save user'])
      else
        let user' := { user with tokens := user.tokens.filter (fun token => token != refreshToken) }
        (RotateResult.ok user', saveUser store user',
          [StoreOp.findById userInfo._id, StoreOp.save user'])

/-- A token signed by `jwt.sign(payload, secret, { expiresIn })` at issue time
`iat`. HS256 signing is deterministic, so the emitted string is a function of
exactly these inputs; two tokens are bit-identical iff these records are
equal. -/
structure SignedToken where
  payload : Payload
  secret : String
  expiresIn : String
  iat : Nat
  deriving Repr, DecidableEq

/-- `UsersController.generateTokens` (controllers/UsersController.ts): draw
`random = Math.random()` once, then sign `{ _id, random }` twice — once with
the access-token expiry window and once with the refresh-token expiry
window, both with the same secret. `now` is the shared issue instant and
`random` the one fresh nonce of this call. -/
def generateTokens (secret accessExpires refreshExpires : String) (now : Nat)
    (random : Nat) (_id : Nat) : SignedToken × SignedToken :=
  let accessToken : SignedToken :=
    { payload := { _id := _id, random := random }, secret := secret,
      expiresIn := accessExpires, iat := now }
  let refreshToken : SignedToken :=
    { payload := { _id := _id, random := random }, secret := secret,
      expiresIn := refreshExpires, iat := now }
  (accessToken, refreshToken)

/-- Outcome of the `authenticate` middleware (src/middleware/auth.ts):
`next(err)` with status 401 for a missing token, `next(err)` with status 403
when `jwt.verify` reports an error, or `next()` with the decoded payload
patched onto the request. -/
inductive AuthOutcome where
  | unauthorized
  | forbidden
  | ok (p : Payload)
  deriving Repr, DecidableEq

/-- The token candidate extracted by the middleware:
`const token = authHeaders && authHeaders.split(' ')[1]`.
A missing header yields `undefined`; an empty header is falsy, so the `&&`
yields the empty string itself (which is defined); otherwise the candidate is
the second space-separated part, if any. -/
def presentedToken : Option String → Option String
  | none => none
  | some h => if h = "" then some "" else (h.splitOn " ").get? 1

/-- The `authenticate` middleware (src/middleware/auth.ts): 401 when the
extracted token is `undefined`, otherwise `jwt.verify` — 403 on a
verification error, success with the decoded payload otherwise. -/
def authenticate (verify : String → Option Payload) (authHeader : Option String) :
    AuthOutcome :=
  match presentedToken authHeader with
  | none => AuthOutcome.unauthorized
  | some token =>
    match verify token with
    | none => AuthOutcome.forbidden
    | some p => AuthOutcome.ok p

/-- `POST /users/login` (src/routes/users.ts): 400 when `username` or
`password` is missing — before any store access; otherwise look the user up
by username (401 when absent or the hash comparison fails), mint tokens,
push the new refresh token and save. `bcryptCompare` and `genTokens` model
the bcrypt collaborator and `generateTokens` at the wire-string level.
Returns the HTTP status, the store afterwards, and the store-access trace. -/
def loginHandler (bcryptCompare : String → String → Bool)
    (genTokens : Nat → String × String) (store : Store)
    (username? password? : Option String) : Nat × Store × List StoreOp :=
  match username?, password? with
  | some username, some password =>
    (match findByUsername store username with
     | none => (401, store, [StoreOp.findByUsername username])
     | some user =>
       if bcryptCompare password user.password then
         let minted := genTokens user._id
         let user' := { user with tokens := user.tokens ++ [minted.2] }
         (200, saveUser store user', [StoreOp.findByUsername username, StoreOp.save user'])
       else
         (401, store, [StoreOp.findByUsername username]))
  | _, _ => (400, store, [])

/-- `POST /users/logout` (src/routes/users.ts): 400 when `refreshToken` is
missing — before any store access; otherwise delegate to
`verifyRefreshToken` — 200 when it resolves, 403 when it rejects, and no
response at all (`none`) when its promise never settles. -/
def logoutHandler (verify : String → Option Payload) (store : Store)
    (refreshToken? : Option String) : Option Nat × Store × List StoreOp :=
  match refreshToken? with
  | none => (some 400, store, [])
  | some refreshToken =>
    match verifyRefreshToken verify store refreshToken with
    | (RotateResult.ok _, store', ops) => (some 200, store', ops)
    | (RotateResult.fail, store', ops) => (some 403, store', ops)
    | (RotateResult.hung, store', ops) => (none, store', ops)

/-- `POST /users/refresh-token` (src/routes/users.ts): 400 when
`refreshToken` is missing — before any store access; otherwise delegate to
`verifyRefreshToken`; on success mint a new pair, push the new refresh token
onto the resolved user document and save it, answering 200; 403 when the
rotation rejects; no response (`none`) when its promise never settles. -/
def refreshTokenHandler (verify : String → Option Payload)
    (genTokens : Nat → String × String) (store : Store)
    (refreshToken? : Option String) : Option Nat × Store × List StoreOp :=
  match refreshToken? with
  | none => (some 400, store, [])
  | some oldRefreshToken =>
    match verifyRefreshToken verify store oldRefreshToken with
    | (RotateResult.ok user, store', ops) =>
      let minted := genTokens user._id
      let user' := { user with tokens := user.tokens ++ [minted.2] }
      (some 200, saveUser store' user', ops ++ [StoreOp.save user'])
    | (RotateResult.fail, store', ops) => (some 403, store', ops)
    | (RotateResult.hung, store', ops) => (none, store', ops)

/-- An uploaded multipart file as multer hands it to the register handler. -/
structure UploadedFile where
  path : String
  mimetype : String
  deriving Repr, DecidableEq

/-- How `POST /users/register` answers. -/
inductive RegisterOutcome where
  | created (u : UserDoc)
  | missingArguments
  | fileTypeUnsupported
  | usernameTaken
  | errorThrown
  deriving Repr, DecidableEq

/-- Whether a register outcome is the 201 success. -/
def RegisterOutcome.isCreated : RegisterOutcome → Bool
  | RegisterOutcome.created _ => true
  | _ => false

/-- `POST /users/register` (src/routes/users.ts): 400 with the uploaded file
unlinked when a required field or the file is missing; 400 with the file
unlinked on a non-png/jpeg mimetype; 409 with the file unlinked when the
username is taken; on a store error during creation (`createFails`), the
file is unlinked and the error rethrown; otherwise the user document is
created with the hashed password, the avatar path and an empty `tokens`
list. Returns the outcome, the store afterwards, the store-access trace and
the list of file paths unlinked. -/
def registerHandler (store : Store) (username? password? email? : Option String)
    (file? : Option UploadedFile) (hash : String → String) (newId : Nat)
    (createFails : Bool) :
    RegisterOutcome × Store × List StoreOp × List String :=
  match username?, password?, email?, file? with
  | some username, some password, some email, some file =>
    if file.mimetype != "image/png" && file.mimetype != "image/jpeg" then
      (RegisterOutcome.fileTypeUnsupported, store, [], [file.path])
    else
      (match findByUsername store username with
       | some _ =>
         (RegisterOutcome.usernameTaken, store, [StoreOp.findByUsername username], [file.path])
       | none =>
         if createFails then
           (RegisterOutcome.errorThrown, store, [StoreOp.findByUsername username], [file.path])
         else
           let user : UserDoc :=
             { _id := newId, username := username, password := hash password,
               email := email, avatar := file.path, tokens := [] }
           (RegisterOutcome.created user, store ++ [user],
             [StoreOp.findByUsername username, StoreOp.create user], []))
  | _, _, _, file? =>
    (RegisterOutcome.missingArguments, store, [],
      match file? with
      | some file => [file.path]
      | none => [])

/-- Local progress of one `/users/refresh-token` request in the interleaved
model of §5: after the read it holds its own in-memory snapshot of the user
document's `tokens` array, and its two writes (`user.save()` inside
`verifyRefreshToken`, then `user.save()` after the push in the route) are
computed from that snapshot, not from the store. -/
inductive ReqPhase where
  | start
  | readDone (snapshot : List String)
  | removedWritten (snapshot : List String)
  | succeeded
  | failedRevoked
  deriving Repr, DecidableEq

/-- One atomic step of a rotation request on the shared `tokens` document:
read the document; check membership of the presented token `t` in the
snapshot (absent → overwrite with the empty list and reject, present →
overwrite with the snapshot minus `t`); finally overwrite with the snapshot
minus `t` plus the newly minted token `n`. Completed requests do nothing. -/
def rotStep (t n : String) (tokens : List String) (ph : ReqPhase) :
    List String × ReqPhase :=
  match ph with
  | ReqPhase.start => (tokens, ReqPhase.readDone tokens)
  | ReqPhase.readDone snapshot =>
    if t ∉ snapshot then
      ([], ReqPhase.failedRevoked)
    else
      (snapshot.filter (fun token => token != t), ReqPhase.removedWritten snapshot)
  | ReqPhase.removedWritten snapshot =>
    (snapshot.filter (fun token => token != t) ++ [n], ReqPhase.succeeded)
  | ReqPhase.succeeded => (tokens, ReqPhase.succeeded)
  | ReqPhase.failedRevoked => (tokens, ReqPhase.failedRevoked)

/-- Run two concurrent rotation requests A (presenting `t`, minting `nA`)
and B (presenting `t`, minting `nB`) under a schedule: `true` steps A,
`false` steps B. The store serializes the individual reads and writes but
holds no lock across a request's read-modify-write sequence. -/
def runSched (t nA nB : String) :
    List Bool → List String × ReqPhase × ReqPhase → List String × ReqPhase × ReqPhase
  | [], s => s
  | true :: rest, (tokens, pa, pb) =>
    let step := rotStep t nA tokens pa
    runSched t nA nB rest (step.1, step.2, pb)
  | false :: rest, (tokens, pa, pb) =>
    let step := rotStep t nB tokens pb
    runSched t nA nB rest (step.1, pa, step.2)

/- Concrete fixtures used to instantiate the theorems below. -/

/-- A fixture codec: `rt-live` and `rt-old` are well-formed tokens for user 1,
everything else is malformed or expired. -/
def wVerify : String → Option Payload :=
  fun s =>
    if s = "rt-live" then some { _id := 1, random := 7 }
    else if s = "rt-old" then some { _id := 1, random := 8 }
    else none

/-- A fixture user document with two live refresh tokens. -/
def wUser : UserDoc :=
  { _id := 1, username := "bob", password := "hashed", email := "bob@mail",
    avatar := "public/avatars/1.png", tokens := ["rt-live", "rt-other"] }

/-- A fixture store holding just `wUser`. -/
def wStore : Store := [wUser]

/-- A fixture token minter for the route handlers. -/
def wGenTokens : Nat → String × String := fun id =>
  (String.append "at-new-" (toString id), String.append "rt-new-" (toString id))

/-- A fixture bcrypt comparison: the stored hash is the password itself. -/
def wBcryptCompare : String → String → Bool := fun password hashed =>
  password == hashed

/-- A fixture password hasher for the register handler. -/
def wHash : String → String := fun password => String.append "hashed-" password

/- Helper lemmas about the store. -/

/-- A `findById` hit pins the hit's `_id`. -/
theorem findById_id_eq {store : Store} {id : Nat} {u : UserDoc}
    (h : findById store id = some u) : u._id = id := by
  induction store with
  | nil => simp [findById] at h
  | cons v rest ih =>
    by_cases hv : v._id = id
    · simp only [findById, if_pos hv] at h
      injection h with h'
      rw [← h']; exact hv
    · exact ih (by simpa [findById, hv] using h)

/-- Saving a document with the same `_id` as a previous `findById` hit makes
the saved document the new `findById` result. -/
theorem findById_saveUser {store : Store} {id : Nat} {u : UserDoc} (u' : UserDoc)
    (h : findById store id = some u) (hid : u'._id = u._id) :
    findById (saveUser store u') id = some u' := by
  have huid : u._id = id := findById_id_eq h
  have hu'id : u'._id = id := hid.trans huid
  induction store with
  | nil => simp [findById] at h
  | cons v rest ih =>
    by_cases hv : v._id = id
    · have hvu : v._id = u'._id := hv.trans hu'id.symm
      simp [saveUser, findById, hvu, hu'id]
    · have hv' : ¬ v._id = u'._id := fun hc => hv (hc.trans hu'id)
      have h' : findById rest id = some u := by simpa [findById, hv] using h
      simpa [saveUser, findById, hv, hv'] using ih h'

/-- Re-saving a document with the same `_id` overwrites the earlier save. -/
theorem saveUser_saveUser (store : Store) {u u' : UserDoc} (h : u._id = u'._id) :
    saveUser (saveUser store u) u' = saveUser store u' := by
  induction store with
  | nil => rfl
  | cons v rest ih =>
    by_cases hv : v._id = u._id
    · simp [saveUser, hv, h, ih]
    · have hv' : ¬ v._id = u'._id := fun hc => hv (hc.trans h.symm)
      simp [saveUser, hv, hv', ih]

/-- C1: when the presented refresh token verifies and its embedded user id
resolves to a user `u`, but the token is not in `u`'s live `tokens` set,
`verifyRefreshToken` fails (rejects with the `InvalidToken` outcome) and
`u`'s entire `tokens` set is cleared and persisted as empty: the store now
holds `u` with no tokens, and the trace shows the save of the cleared
document. -/
theorem c1_token_reuse_revokes_all_sessions
    (verify : String → Option Payload) (store : Store) (t : String)
    (p : Payload) (u : UserDoc)
    (hv : verify t = some p) (hu : findById store p._id = some u)
    (ht : t ∉ u.tokens) :
    (verifyRefreshToken verify store t).1 = RotateResult.fail ∧
    (verifyRefreshToken verify store t).2.1 = saveUser store { u with tokens := [] } ∧
    findById (verifyRefreshToken verify store t).2.1 p._id = some { u with tokens := [] } ∧
    (verifyRefreshToken verify store t).2.2 =
      [StoreOp.findById p._id, StoreOp.save { u with tokens := [] }] := by
  have h2 : findById (saveUser store { u with tokens := [] }) p._id =
      some { u with tokens := [] } := findById_saveUser _ hu rfl
  refine ⟨?_, ?_, ?_, ?_⟩ <;>
    simp [verifyRefreshToken, hv, hu, ht, h2]

/-- Witness for C1: presenting `rt-old` (a well-formed token for user 1 that
is not in the live set) fails and persists user 1 with an empty token set. -/
theorem c1_token_reuse_revokes_all_sessions_witness :
    (verifyRefreshToken wVerify wStore "rt-old").1 = RotateResult.fail ∧
    (verifyRefreshToken wVerify wStore "rt-old").2.1 =
      saveUser wStore { wUser with tokens := [] } ∧
    findById (verifyRefreshToken wVerify wStore "rt-old").2.1 1 =
      some { wUser with tokens := [] } ∧
    (verifyRefreshToken wVerify wStore "rt-old").2.2 =
      [StoreOp.findById 1, StoreOp.save { wUser with tokens := [] }] :=
  c1_token_reuse_revokes_all_sessions wVerify wStore "rt-old"
    { _id := 1, random := 8 } wUser (by decide) (by decide) (by decide)

/-- C2: when the presented refresh token is in user `u`'s live `tokens` set
(a set, hence duplicate-free), `verifyRefreshToken` succeeds, and the
persisted document is exactly `u` with the presented token erased: the
count of live tokens decreases by exactly one, the multiplicity of every
other token is unchanged, and the presented token is gone. -/
theorem c2_live_rotation_removes_exactly_presented_token
    (verify : String → Option Payload) (store : Store) (t : String)
    (p : Payload) (u : UserDoc)
    (hv : verify t = some p) (hu : findById store p._id = some u)
    (hnd : u.tokens.Nodup) (ht : t ∈ u.tokens) :
    (verifyRefreshToken verify store t).1 =
      RotateResult.ok { u with tokens := u.tokens.erase t } ∧
    (verifyRefreshToken verify store t).2.1 =
      saveUser store { u with tokens := u.tokens.erase t } ∧
    findById (verifyRefreshToken verify store t).2.1 p._id =
      some { u with tokens := u.tokens.erase t } ∧
    (verifyRefreshToken verify store t).2.2 =
      [StoreOp.findById p._id, StoreOp.save { u with tokens := u.tokens.erase t }] ∧
    (u.tokens.erase t).length + 1 = u.tokens.length ∧
    (∀ s, s ≠ t → (u.tokens.erase t).count s = u.tokens.count s) ∧
    t ∉ u.tokens.erase t := by
  have hef : u.tokens.erase t = u.tokens.filter (fun token => token != t) :=
    hnd.erase_eq_filter t
  have h2 : findById (saveUser store { u with tokens := u.tokens.erase t }) p._id =
      some { u with tokens := u.tokens.erase t } := findById_saveUser _ hu rfl
  rw [hef] at h2
  refine ⟨?_, ?_, ?_, ?_, List.length_erase_add_one ht, ?_, hnd.not_mem_erase⟩
  · simp [verifyRefreshToken, hv, hu, ht, hef]
  · simp [verifyRefreshToken, hv, hu, ht, hef]
  · simpa [verifyRefreshToken, hv, hu, ht, hef] using h2
  · simp [verifyRefreshToken, hv, hu, ht, hef]
  · intro s hs
    exact List.count_erase_of_ne hs u.tokens

/-- Witness for C2: rotating the live token `rt-live` of user 1 succeeds and
persists the user with only `rt-other` left. -/
theorem c2_live_rotation_removes_exactly_presented_token_witness :
    (verifyRefreshToken wVerify wStore "rt-live").1 =
      RotateResult.ok { wUser with tokens := wUser.tokens.erase "rt-live" } ∧
    (verifyRefreshToken wVerify wStore "rt-live").2.1 =
      saveUser wStore { wUser with tokens := wUser.tokens.erase "rt-live" } ∧
    findById (verifyRefreshToken wVerify wStore "rt-live").2.1 1 =
      some { wUser with tokens := wUser.tokens.erase "rt-live" } ∧
    (verifyRefreshToken wVerify wStore "rt-live").2.2 =
      [StoreOp.findById 1, StoreOp.save { wUser with tokens := wUser.tokens.erase "rt-live" }] ∧
    (wUser.tokens.erase "rt-live").length + 1 = wUser.tokens.length ∧
    (∀ s, s ≠ "rt-live" →
      (wUser.tokens.erase "rt-live").count s = wUser.tokens.count s) ∧
    "rt-live" ∉ wUser.tokens.erase "rt-live" :=
  c2_live_rotation_removes_exactly_presented_token wVerify wStore "rt-live"
    { _id := 1, random := 7 } wUser (by decide) (by decide) (by decide) (by decide)

/-- C3 (code bug): the spec says a malformed or expired refresh token makes
rotation fail with `InvalidToken`, but the `jwt.verify` callback never
checks its `err` argument: on a verification error `userInfo` is undefined
and `userInfo._id` throws outside the `try`, so neither `resolve` nor
`reject` runs — the promise hangs instead of rejecting, and the
`/users/refresh-token` route never sends its documented 403 response. -/
theorem c3_malformed_token_hangs_instead_of_failing
    (verify : String → Option Payload) (genTokens : Nat → String × String)
    (store : Store) (t : String) (hv : verify t = none) :
    (verifyRefreshToken verify store t).1 = RotateResult.hung ∧
    (verifyRefreshToken verify store t).1 ≠ RotateResult.fail ∧
    (refreshTokenHandler verify genTokens store (some t)).1 = none ∧
    (logoutHandler verify store (some t)).1 = none := by
  refine ⟨?_, ?_, ?_, ?_⟩ <;>
    simp [verifyRefreshToken, refreshTokenHandler, logoutHandler, hv]

/-- Witness for C3: the malformed token `garbage` leaves the rotation promise
unsettled and the refresh-token and logout routes without any response. -/
theorem c3_malformed_token_hangs_instead_of_failing_witness :
    (verifyRefreshToken wVerify wStore "garbage").1 = RotateResult.hung ∧
    (verifyRefreshToken wVerify wStore "garbage").1 ≠ RotateResult.fail ∧
    (refreshTokenHandler wVerify wGenTokens wStore (some "garbage")).1 = none ∧
    (logoutHandler wVerify wStore (some "garbage")).1 = none :=
  c3_malformed_token_hangs_instead_of_failing wVerify wGenTokens wStore "garbage"
    (by decide)

/-- Multiplicity of any non-erased token is unchanged by the rotation
filter. -/
theorem count_filter_ne (l : List String) {s t : String} (hs : s ≠ t) :
    (l.filter (fun token => token != t)).count s = l.count s := by
  rw [List.count_filter]
  simp [hs]

/-- C5: a refresh token consumed by one successful rotation is terminal.
The second presentation fails and persists the user's `tokens` set as
empty; the third presentation fails again and leaves the store exactly as
the second left it — reuse attempts are idempotent on state. -/
theorem c5_consumed_token_reuse_is_terminal
    (verify : String → Option Payload) (store : Store) (t : String)
    (p : Payload) (u : UserDoc)
    (hv : verify t = some p) (hu : findById store p._id = some u)
    (ht : t ∈ u.tokens) :
    (verifyRefreshToken verify store t).1 =
      RotateResult.ok { u with tokens := u.tokens.filter (fun token => token != t) } ∧
    (verifyRefreshToken verify (verifyRefreshToken verify store t).2.1 t).1 =
      RotateResult.fail ∧
    findById (verifyRefreshToken verify (verifyRefreshToken verify store t).2.1 t).2.1
        p._id = some { u with tokens := [] } ∧
    (verifyRefreshToken verify
        (verifyRefreshToken verify (verifyRefreshToken verify store t).2.1 t).2.1 t).1 =
      RotateResult.fail ∧
    (verifyRefreshToken verify
        (verifyRefreshToken verify (verifyRefreshToken verify store t).2.1 t).2.1 t).2.1 =
      (verifyRefreshToken verify (verifyRefreshToken verify store t).2.1 t).2.1 := by
  have hr1 : verifyRefreshToken verify store t =
      (RotateResult.ok { u with tokens := u.tokens.filter (fun token => token != t) },
        saveUser store { u with tokens := u.tokens.filter (fun token => token != t) },
        [StoreOp.findById p._id,
          StoreOp.save { u with tokens := u.tokens.filter (fun token => token != t) }]) := by
    simp [verifyRefreshToken, hv, hu, ht]
  have hfind1 : findById
      (saveUser store { u with tokens := u.tokens.filter (fun token => token != t) }) p._id =
      some { u with tokens := u.tokens.filter (fun token => token != t) } :=
    findById_saveUser _ hu rfl
  have hnot1 : t ∉ u.tokens.filter (fun token => token != t) := by
    intro hmem
    have := (List.mem_filter.mp hmem).2
    simp at this
  have hr2 : verifyRefreshToken verify
      (saveUser store { u with tokens := u.tokens.filter (fun token => token != t) }) t =
      (RotateResult.fail,
        saveUser (saveUser store { u with tokens := u.tokens.filter (fun token => token != t) })
          { u with tokens := [] },
        [StoreOp.findById p._id, StoreOp.save { u with tokens := [] }]) := by
    simp [verifyRefreshToken, hv, hfind1, hnot1]
  have hfind2 : findById
      (saveUser (saveUser store { u with tokens := u.tokens.filter (fun token => token != t) })
        { u with tokens := [] }) p._id = some { u with tokens := [] } :=
    findById_saveUser _ hfind1 rfl
  have hr3 : verifyRefreshToken verify
      (saveUser (saveUser store { u with tokens := u.tokens.filter (fun token => token != t) })
        { u with tokens := [] }) t =
      (RotateResult.fail,
        saveUser (saveUser (saveUser store
            { u with tokens := u.tokens.filter (fun token => token != t) })
          { u with tokens := [] }) { u with tokens := [] },
        [StoreOp.findById p._id, StoreOp.save { u with tokens := [] }]) := by
    simp [verifyRefreshToken, hv, hfind2]
  have hsave : saveUser (saveUser (saveUser store
        { u with tokens := u.tokens.filter (fun token => token != t) })
      { u with tokens := [] }) { u with tokens := [] } =
      saveUser (saveUser store { u with tokens := u.tokens.filter (fun token => token != t) })
        { u with tokens := [] } :=
    saveUser_saveUser _ rfl
  refine ⟨?_, ?_, ?_, ?_, ?_⟩
  · rw [hr1]
  · rw [hr1]; rw [hr2]
  · rw [hr1]; rw [hr2]; exact hfind2
  · rw [hr1]; rw [hr2]; rw [hr3]
  · rw [hr1]; rw [hr2]; rw [hr3]; exact hsave

/-- Witness for C5: user 1's live token `rt-live` is consumed once; the
second and third presentations both fail, the set is persisted empty and
stays empty. -/
theorem c5_consumed_token_reuse_is_terminal_witness :
    (verifyRefreshToken wVerify wStore "rt-live").1 =
      RotateResult.ok
        { wUser with tokens := wUser.tokens.filter (fun token => token != "rt-live") } ∧
    (verifyRefreshToken wVerify (verifyRefreshToken wVerify wStore "rt-live").2.1
        "rt-live").1 = RotateResult.fail ∧
    findById (verifyRefreshToken wVerify (verifyRefreshToken wVerify wStore "rt-live").2.1
        "rt-live").2.1 1 = some { wUser with tokens := [] } ∧
    (verifyRefreshToken wVerify
        (verifyRefreshToken wVerify (verifyRefreshToken wVerify wStore "rt-live").2.1
          "rt-live").2.1 "rt-live").1 = RotateResult.fail ∧
    (verifyRefreshToken wVerify
        (verifyRefreshToken wVerify (verifyRefreshToken wVerify wStore "rt-live").2.1
          "rt-live").2.1 "rt-live").2.1 =
      (verifyRefreshToken wVerify (verifyRefreshToken wVerify wStore "rt-live").2.1
        "rt-live").2.1 :=
  c5_consumed_token_reuse_is_terminal wVerify wStore "rt-live"
    { _id := 1, random := 7 } wUser (by decide) (by decide) (by decide)

/-- C4 counterexample: `rt-old` verifies and resolves to user 1, is absent
from the live set, and yet `POST /users/logout` clears the user's entire
`tokens` set — the other live tokens `rt-live` and `rt-other` are revoked
even though they were not presented, refuting the claim that logout never
triggers mass revocation. -/
theorem c4_logout_mass_revokes_counterexample :
    wVerify "rt-old" = some { _id := 1, random := 8 } ∧
    findById wStore 1 = some wUser ∧
    "rt-old" ∉ wUser.tokens ∧
    "rt-live" ∈ wUser.tokens ∧
    "rt-other" ∈ wUser.tokens ∧
    (logoutHandler wVerify wStore (some "rt-old")).1 = some 403 ∧
    findById (logoutHandler wVerify wStore (some "rt-old")).2.1 1 =
      some { wUser with tokens := [] } := by
  decide

/-- C4 amended: logout delegates to `verifyRefreshToken`, so for a token
that verifies and resolves to an existing user: when the presented token is
live, logout answers 200 and removes the presented token, leaving every
other token's multiplicity unchanged; when the presented token is absent,
logout answers 403 and clears the user's entire `tokens` set — the same
mass-revocation reaction as rotation reuse detection. -/
theorem c4_amended_logout_reuses_rotation
    (verify : String → Option Payload) (store : Store) (t : String)
    (p : Payload) (u : UserDoc)
    (hv : verify t = some p) (hu : findById store p._id = some u) :
    (t ∈ u.tokens →
      (logoutHandler verify store (some t)).1 = some 200 ∧
      findById (logoutHandler verify store (some t)).2.1 p._id =
        some { u with tokens := u.tokens.filter (fun token => token != t) } ∧
      (∀ s, s ≠ t →
        (u.tokens.filter (fun token => token != t)).count s = u.tokens.count s) ∧
      t ∉ u.tokens.filter (fun token => token != t)) ∧
    (t ∉ u.tokens →
      (logoutHandler verify store (some t)).1 = some 403 ∧
      findById (logoutHandler verify store (some t)).2.1 p._id =
        some { u with tokens := [] }) := by
  constructor
  · intro ht
    have hfind1 : findById
        (saveUser store { u with tokens := u.tokens.filter (fun token => token != t) }) p._id =
        some { u with tokens := u.tokens.filter (fun token => token != t) } :=
      findById_saveUser _ hu rfl
    have hnot1 : t ∉ u.tokens.filter (fun token => token != t) := by
      intro hmem
      have := (List.mem_filter.mp hmem).2
      simp at this
    refine ⟨?_, ?_, fun s hs => count_filter_ne u.tokens hs, hnot1⟩
    · simp [logoutHandler, verifyRefreshToken, hv, hu, ht]
    · simpa [logoutHandler, verifyRefreshToken, hv, hu, ht] using hfind1
  · intro ht
    have hfind1 : findById (saveUser store { u with tokens := [] }) p._id =
        some { u with tokens := [] } := findById_saveUser _ hu rfl
    constructor
    · simp [logoutHandler, verifyRefreshToken, hv, hu, ht]
    · simpa [logoutHandler, verifyRefreshToken, hv, hu, ht] using hfind1

/-- Witness for C4's amended claim, at the live token `rt-live` and the
absent token branch of the same user. -/
theorem c4_amended_logout_reuses_rotation_witness :
    ("rt-live" ∈ wUser.tokens →
      (logoutHandler wVerify wStore (some "rt-live")).1 = some 200 ∧
      findById (logoutHandler wVerify wStore (some "rt-live")).2.1 1 =
        some { wUser with tokens := wUser.tokens.filter (fun token => token != "rt-live") } ∧
      (∀ s, s ≠ "rt-live" →
        (wUser.tokens.filter (fun token => token != "rt-live")).count s =
          wUser.tokens.count s) ∧
      "rt-live" ∉ wUser.tokens.filter (fun token => token != "rt-live")) ∧
    ("rt-live" ∉ wUser.tokens →
      (logoutHandler wVerify wStore (some "rt-live")).1 = some 403 ∧
      findById (logoutHandler wVerify wStore (some "rt-live")).2.1 1 =
        some { wUser with tokens := [] }) :=
  c4_amended_logout_reuses_rotation wVerify wStore "rt-live"
    { _id := 1, random := 7 } wUser (by decide) (by decide)

/-- C6 counterexample: one `generateTokens` call draws a single
`Math.random()` and signs the same `{ _id, random }` payload twice, so when
the two expiry windows are equal (here both `3d`) the access token and the
refresh token of the same call are bit-identical — refuting the claim that
the nonce keeps them distinct even with equal expiry windows. -/
theorem c6_equal_expiry_identical_tokens_counterexample :
    (generateTokens "secret" "3d" "3d" 1000 42 7).1 =
      (generateTokens "secret" "3d" "3d" 1000 42 7).2 := by
  decide

/-- C6 amended: each call embeds one fresh random nonce, shared by both
tokens, alongside the user id; the access and refresh tokens of the same
call differ exactly when their expiry windows differ, so with equal expiry
windows they are bit-identical. -/
theorem c6_amended_shared_nonce_tokens_differ_iff_expiry
    (secret accessExpires refreshExpires : String) (now random uid : Nat) :
    (generateTokens secret accessExpires refreshExpires now random uid).1.payload =
      { _id := uid, random := random } ∧
    (generateTokens secret accessExpires refreshExpires now random uid).2.payload =
      { _id := uid, random := random } ∧
    ((generateTokens secret accessExpires refreshExpires now random uid).1 =
        (generateTokens secret accessExpires refreshExpires now random uid).2 ↔
      accessExpires = refreshExpires) := by
  refine ⟨rfl, rfl, ?_, ?_⟩
  · intro h
    simpa [generateTokens] using congrArg SignedToken.expiresIn h
  · intro h
    simp [generateTokens, h]

/-- C7: the middleware answers 401 (`Unauthorized`) exactly when the
extracted token candidate is undefined (no token presented), and 403
(`Forbidden`) exactly when a token candidate was presented but the codec's
signature/expiry verification rejects it; the two failure categories are
distinct. -/
theorem c7_auth_distinguishes_missing_from_invalid
    (verify : String → Option Payload) (authHeader : Option String) :
    (authenticate verify authHeader = AuthOutcome.unauthorized ↔
      presentedToken authHeader = none) ∧
    (authenticate verify authHeader = AuthOutcome.forbidden ↔
      ∃ token, presentedToken authHeader = some token ∧ verify token = none) ∧
    AuthOutcome.unauthorized ≠ AuthOutcome.forbidden := by
  rcases hpt : presentedToken authHeader with _ | token
  · simp [authenticate, hpt]
  · rcases hv : verify token with _ | p <;> simp [authenticate, hpt, hv]

/-- C8: a login request missing `username` or `password`, a logout request
missing `refreshToken`, and a refresh request missing `refreshToken` are
each answered 400 with the store untouched and an empty store-access
trace — the client error is surfaced before any credential-store access. -/
theorem c8_missing_field_answers_400_without_store_access
    (bcryptCompare : String → String → Bool) (genTokens : Nat → String × String)
    (verify : String → Option Payload) (store : Store)
    (username? password? : Option String)
    (h : username? = none ∨ password? = none) :
    loginHandler bcryptCompare genTokens store username? password? = (400, store, []) ∧
    logoutHandler verify store none = (some 400, store, []) ∧
    refreshTokenHandler verify genTokens store none = (some 400, store, []) := by
  refine ⟨?_, rfl, rfl⟩
  rcases h with h | h
  · subst h; rfl
  · subst h
    cases username? with
    | none => rfl
    | some username => rfl

/-- Witness for C8: a login body without a username, and bodies without a
refresh token, are all answered 400 with no store access. -/
theorem c8_missing_field_answers_400_without_store_access_witness :
    loginHandler wBcryptCompare wGenTokens wStore none (some "pw") = (400, wStore, []) ∧
    logoutHandler wVerify wStore none = (some 400, wStore, []) ∧
    refreshTokenHandler wVerify wGenTokens wStore none = (some 400, wStore, []) :=
  c8_missing_field_answers_400_without_store_access wBcryptCompare wGenTokens wVerify
    wStore none (some "pw") (Or.inl rfl)

/-- C9: under the schedule that lets both rotation requests read the user
document before either writes, both observe the single live copy of `rt` as
present, both complete the full read-remove-append sequence successfully,
and the final store keeps one of the two newly minted tokens (the other
write is lost) — within the claim's zero/one/two envelope — so single-use
is not enforced: the one live token authenticated two successful
rotations. -/
theorem c9_concurrent_rotation_double_success :
    ∃ sched : List Bool,
      (runSched "rt" "na" "nb" sched (["rt"], ReqPhase.start, ReqPhase.start)).2.1 =
        ReqPhase.succeeded ∧
      (runSched "rt" "na" "nb" sched (["rt"], ReqPhase.start, ReqPhase.start)).2.2 =
        ReqPhase.succeeded ∧
      (runSched "rt" "na" "nb" sched (["rt"], ReqPhase.start, ReqPhase.start)).1 = ["nb"] ∧
      ((runSched "rt" "na" "nb" sched (["rt"], ReqPhase.start, ReqPhase.start)).1.count "na" +
          (runSched "rt" "na" "nb" sched (["rt"], ReqPhase.start, ReqPhase.start)).1.count "nb" = 0 ∨
        (runSched "rt" "na" "nb" sched (["rt"], ReqPhase.start, ReqPhase.start)).1.count "na" +
          (runSched "rt" "na" "nb" sched (["rt"], ReqPhase.start, ReqPhase.start)).1.count "nb" = 1 ∨
        (runSched "rt" "na" "nb" sched (["rt"], ReqPhase.start, ReqPhase.start)).1.count "na" +
          (runSched "rt" "na" "nb" sched (["rt"], ReqPhase.start, ReqPhase.start)).1.count "nb" = 2) :=
  ⟨[true, false, true, true, false, false], by decide⟩

/-- C10: every failed registration — missing field, unsupported avatar
mimetype, username taken, or a store error during creation — leaves the
store unchanged (no user record created) and unlinks the uploaded avatar
file when one was received. -/
theorem c10_failed_registration_leaves_no_state
    (store : Store) (username? password? email? : Option String)
    (file? : Option UploadedFile) (hash : String → String) (newId : Nat)
    (createFails : Bool)
    (h : (registerHandler store username? password? email? file? hash newId
        createFails).1.isCreated = false) :
    (registerHandler store username? password? email? file? hash newId createFails).2.1 =
      store ∧
    (∀ file, file? = some file →
      file.path ∈ (registerHandler store username? password? email? file? hash newId
        createFails).2.2.2) := by
  rcases username? with _ | username
  · refine ⟨rfl, ?_⟩
    intro file hf
    subst hf
    simp [registerHandler]
  · rcases password? with _ | password
    · refine ⟨rfl, ?_⟩
      intro file hf
      subst hf
      simp [registerHandler]
    · rcases email? with _ | email
      · refine ⟨rfl, ?_⟩
        intro file hf
        subst hf
        simp [registerHandler]
      · rcases file? with _ | file
        · exact ⟨rfl, by intro file hf; cases hf⟩
        · rcases hmt : (file.mimetype != "image/png" && file.mimetype != "image/jpeg") with _ | _
          · rcases hfu : findByUsername store username with _ | taken
            · cases createFails with
              | false =>
                exfalso
                simp [registerHandler, hmt, hfu, RegisterOutcome.isCreated] at h
              | true =>
                constructor
                · simp [registerHandler, hmt, hfu]
                · intro f hf
                  injection hf with hf
                  subst hf
                  simp [registerHandler, hmt, hfu]
            · constructor
              · simp [registerHandler, hmt, hfu]
              · intro f hf
                injection hf with hf
                subst hf
                simp [registerHandler, hmt, hfu]
          · constructor
            · simp [registerHandler, hmt]
            · intro f hf
              injection hf with hf
              subst hf
              simp [registerHandler, hmt]

/-- Witness for C10: a registration lacking `email` but carrying an uploaded
avatar creates nothing and unlinks the uploaded file. -/
theorem c10_failed_registration_leaves_no_state_witness :
    (registerHandler wStore (some "alice") (some "pw") none
        (some { path := "public/avatars/9.png", mimetype := "image/png" })
        wHash 9 false).2.1 = wStore ∧
    (∀ file,
      (some { path := "public/avatars/9.png", mimetype := "image/png" } :
          Option UploadedFile) = some file →
      file.path ∈ (registerHandler wStore (some "alice") (some "pw") none
        (some { path := "public/avatars/9.png", mimetype := "image/png" })
        wHash 9 false).2.2.2) :=
  c10_failed_registration_leaves_no_state wStore (some "alice") (some "pw") none
    (some { path := "public/avatars/9.png", mimetype := "image/png" })
    wHash 9 false (by decide)
